import Mathlib

/-!
Verification of the deep-research task tracker.

This file shallowly embeds the core of the repository:

* `app/backend/database.py` — the `ResearchTask` row model and the
  `ResearchRepository` operations (`create`, `get_by_id`, `update_status`,
  `update_result`, `update_error`, `get_all`).  The database table is
  modelled as a list of task records in insertion order; the SQL queries
  `filter(research_id == rid).first()` become a first-match search, and
  `ORDER BY created_at DESC LIMIT l OFFSET o` becomes an insertion sort by
  descending `created_at` followed by `drop`/`take`.  Timestamps are logical
  naturals supplied by the caller.
* `app/backend/main.py` — the `start_research` endpoint, the
  `get_research_status` endpoint and the `run_research` background unit,
  with the external research engine abstracted as its outcome
  (`Except String EngineResult`, an exception message or a result mapping).
* `src/logging_utils.py` and `src/request_logger.py` — `read_logs`,
  `detect_loop`, `get_request_type_breakdown`, `get_session_summary` and the
  counters of `get_api_log_summary`, working on log lines represented as
  `List Char`, with Python's `str.find`, slicing and `int()` reproduced
  explicitly.
-/

/-- A stored research result.  `run_research` in `main.py` always stores the
mapping `{compressed_research, raw_notes, draft_report}`. -/
structure ResultData where
  compressed_research : String
  raw_notes : List String
  draft_report : String
deriving DecidableEq

/-- One row of the `research_tasks` table (`database.py`).  The store-assigned
autoincrement `id` column is never read by any repository operation and is
omitted. -/
structure ResearchTask where
  research_id : String
  query : String
  research_type : String
  status : String
  result : Option ResultData
  error : Option String
  created_at : Nat
  updated_at : Nat
deriving DecidableEq

/-- The `research_tasks` table, in insertion order. -/
abbrev Store : Type := List ResearchTask

/-- Database errors surfaced by the repository layer. -/
inductive DBError where
  | duplicateKey
deriving DecidableEq

/-- The SQLAlchemy query `db.query(ResearchTask).filter(ResearchTask.research_id
== rid).first()`: the first stored row with the given `research_id`. -/
def findTask (db : Store) (rid : String) : Option ResearchTask :=
  List.find? (fun t => t.research_id == rid) db

/-- Update the first row matching `rid` with `f`, returning the new table and
the refreshed row (`None` when no row matches) — the shared shape of
`update_status`, `update_result` and `update_error` in `database.py`. -/
def update_task (db : Store) (rid : String) (f : ResearchTask → ResearchTask) :
    Store × Option ResearchTask :=
  match db with
  | [] => ([], none)
  | t :: ts =>
    if t.research_id == rid then (f t :: ts, some (f t))
    else
      let p := update_task ts rid f
      (t :: p.1, p.2)

namespace ResearchRepository

/-- `ResearchRepository.create`: insert a new row with the given fields,
`result`/`error` unset and both timestamps set to now.  The unique constraint
on `research_id` makes the commit fail on a duplicate.  In `database.py` the
`status` parameter defaults to `"pending"`; every caller in the repository
passes it explicitly or relies on that default. -/
def create (db : Store) (now : Nat) (research_id query research_type status : String) :
    Except DBError (Store × ResearchTask) :=
  if (findTask db research_id).isSome then
    .error .duplicateKey
  else
    let task : ResearchTask :=
      { research_id, query, research_type, status,
        result := none, error := none, created_at := now, updated_at := now }
    .ok (db ++ [task], task)

/-- `ResearchRepository.get_by_id`. -/
def get_by_id (db : Store) (research_id : String) : Option ResearchTask :=
  findTask db research_id

/-- `ResearchRepository.update_status`: overwrite `status` (no transition
check) and refresh `updated_at`; no-op returning `None` when absent. -/
def update_status (db : Store) (now : Nat) (research_id status : String) :
    Store × Option ResearchTask :=
  if (findTask db research_id).isSome then
    update_task db research_id (fun t => { t with status, updated_at := now })
  else (db, none)

/-- `ResearchRepository.update_result`: set `result`, force `status` to
`"completed"` (no transition check, `error` left in place) and refresh
`updated_at`; no-op returning `None` when absent. -/
def update_result (db : Store) (now : Nat) (research_id : String) (result : ResultData) :
    Store × Option ResearchTask :=
  if (findTask db research_id).isSome then
    update_task db research_id
      (fun t => { t with result := some result, status := "completed", updated_at := now })
  else (db, none)

/-- `ResearchRepository.update_error`: set `error`, force `status` to
`"failed"` (no transition check, `result` left in place) and refresh
`updated_at`; no-op returning `None` when absent. -/
def update_error (db : Store) (now : Nat) (research_id error : String) :
    Store × Option ResearchTask :=
  if (findTask db research_id).isSome then
    update_task db research_id
      (fun t => { t with error := some error, status := "failed", updated_at := now })
  else (db, none)

end ResearchRepository

/-- Insert a task into a list kept in descending `created_at` order, after all
rows whose `created_at` is at least as large (the stable position `ORDER BY
created_at DESC` gives a newly considered row). -/
def insertDesc (t : ResearchTask) : List ResearchTask → List ResearchTask
  | [] => [t]
  | x :: xs => if t.created_at ≤ x.created_at then x :: insertDesc t xs else t :: x :: xs

/-- `ORDER BY created_at DESC` as a stable insertion sort. -/
def sortByCreatedDesc : List ResearchTask → List ResearchTask
  | [] => []
  | x :: xs => insertDesc x (sortByCreatedDesc xs)

namespace ResearchRepository

/-- `ResearchRepository.get_all`: `ORDER BY created_at DESC LIMIT limit OFFSET
offset` — sort newest first, skip `offset` rows, return at most `limit`. -/
def get_all (db : Store) (limit offset : Nat) : List ResearchTask :=
  ((sortByCreatedDesc db).drop offset).take limit

/-- `ResearchRepository.get_all` with its default arguments
(`limit = 100`, `offset = 0` in `database.py`). -/
def get_all_default (db : Store) : List ResearchTask :=
  get_all db 100 0

end ResearchRepository

/-- The repository operations `main.py` actually performs, used to describe the
set of reachable stores.  `setRunning` is `update_status(rid, "running")`,
`setCompleted` is `update_result`, `setFailed` is `update_error`. -/
inductive StoreOp where
  | create (rid query research_type : String)
  | setRunning (rid : String)
  | setCompleted (rid : String) (r : ResultData)
  | setFailed (rid : String) (e : String)

/-- Apply one repository operation; a rejected `create` (duplicate key) leaves
the table unchanged. -/
def applyOp (db : Store) (now : Nat) : StoreOp → Store
  | .create rid q k =>
    match ResearchRepository.create db now rid q k "pending" with
    | .ok p => p.1
    | .error _ => db
  | .setRunning rid => (ResearchRepository.update_status db now rid "running").1
  | .setCompleted rid r => (ResearchRepository.update_result db now rid r).1
  | .setFailed rid e => (ResearchRepository.update_error db now rid e).1

/-- One fold step of a run: apply the operation and advance the clock. -/
def opStep (p : Store × Nat) (op : StoreOp) : Store × Nat :=
  (applyOp p.1 p.2 op, p.2 + 1)

/-- Run a sequence of repository operations from the empty table. -/
def applyOps (ops : List StoreOp) : Store :=
  (List.foldl opStep ([], 0) ops).1

/-- The body of FastAPI's `ResearchResponse`. -/
structure ResearchResponse where
  research_id : String
  status : String
  query : String
  result : Option ResultData
  error : Option String
deriving DecidableEq

/-- HTTP error signal: status code and detail, as raised by `HTTPException`. -/
structure HTTPError where
  status_code : Nat
  detail : String
deriving DecidableEq

/-- `POST /research` (`start_research` in `main.py`): mint an identifier
(passed in here, `uuid4` being nondeterministic), create the row with status
`"pending"`, and answer with a pending response carrying null result and
error.  The background launch itself does not touch the store. -/
def start_research (db : Store) (now : Nat) (research_id query research_type : String) :
    Except DBError (Store × ResearchResponse) :=
  match ResearchRepository.create db now research_id query research_type "pending" with
  | .error e => .error e
  | .ok p =>
    .ok (p.1,
      { research_id, status := "pending", query, result := none, error := none })

/-- `GET /research/{research_id}` (`get_research_status` in `main.py`): 404
when absent, otherwise the task view. -/
def get_research_status (db : Store) (research_id : String) :
    Except HTTPError ResearchResponse :=
  match ResearchRepository.get_by_id db research_id with
  | none => .error { status_code := 404, detail := "Research not found" }
  | some task =>
    .ok { research_id := task.research_id, status := task.status, query := task.query,
          result := task.result, error := task.error }

/-- The engine state mapping returned by `supervisor_agent.ainvoke` or
`researcher_agent.ainvoke`, restricted to the keys `run_research` reads;
`none` models an absent key (`dict.get` default). -/
structure EngineResult where
  draft_report : Option String
  compressed_research : Option String
  raw_notes : Option (List String)

/-- The result normalization in `run_research` (`main.py` lines 243-255):
`draft_report = result.get("draft_report", "")`; if that is empty, synthesize
`"# Research Report\n\n" + result.get("compressed_research", "")`; then build
the stored mapping. -/
def build_result_data (result : EngineResult) : ResultData :=
  let draft0 := result.draft_report.getD ""
  let draft_report :=
    if draft0 = "" then "# Research Report\n\n" ++ result.compressed_research.getD ""
    else draft0
  { compressed_research := result.compressed_research.getD "",
    raw_notes := result.raw_notes.getD [],
    draft_report := draft_report }

/-- Store calls made by one background run, recorded to count terminal
writes. -/
inductive RunCall where
  | setRunning
  | setCompleted (r : ResultData)
  | setFailed (e : String)
deriving DecidableEq

/-- Whether a store call is a terminal write. -/
def RunCall.isTerminal : RunCall → Bool
  | .setRunning => false
  | .setCompleted _ => true
  | .setFailed _ => true

/-- `run_research` (`main.py`): set the task running, await the engine, and on
success store the normalized result via `update_result`, while the
`except Exception` handler catches any engine failure and stores `str(e)` via
`update_error`.  The engine invocation is abstracted by its outcome
(`.ok result` or `.error e` for a raised exception); the function is total —
nothing escapes to the submitter — and also returns the list of store calls it
performed. -/
def run_research (db : Store) (now : Nat) (research_id : String)
    (engine : Except String EngineResult) : Store × List RunCall :=
  let db1 := (ResearchRepository.update_status db now research_id "running").1
  match engine with
  | .ok result =>
    let result_data := build_result_data result
    ((ResearchRepository.update_result db1 now research_id result_data).1,
     [.setRunning, .setCompleted result_data])
  | .error e =>
    ((ResearchRepository.update_error db1 now research_id e).1,
     [.setRunning, .setFailed e])

/-- A log line, as the character sequence Python iterates over. -/
abbrev Line : Type := List Char

/-- Whether `needle` starts `hay`. -/
def isPrefixAt : Line → Line → Bool
  | [], _ => true
  | _ :: _, [] => false
  | a :: as, b :: bs => a == b && isPrefixAt as bs

/-- Index (from `i`) of the first occurrence of `needle` in `hay`. -/
def findSubAux (needle : Line) : Line → Nat → Option Nat
  | [], i => if needle.isEmpty then some i else none
  | c :: rest, i =>
    if isPrefixAt needle (c :: rest) then some i else findSubAux needle rest (i + 1)

/-- Python `needle in hay` for strings: substring containment. -/
def containsSub (needle hay : Line) : Bool :=
  (findSubAux needle hay 0).isSome

/-- Python `hay.find(needle, start)`: index of the first occurrence at or
after `start`, `-1` when absent.  A negative `start` counts from the end,
clamped at 0, as in Python; every call below passes a nonnegative start. -/
def pyFindFrom (hay needle : Line) (start : Int) : Int :=
  let s : Nat := if start < 0 then ((hay.length : Int) + start).toNat else start.toNat
  match findSubAux needle (hay.drop s) 0 with
  | some i => ((i + s : Nat) : Int)
  | none => -1

/-- Python `hay.find(needle)`. -/
def pyFind (hay needle : Line) : Int :=
  pyFindFrom hay needle 0

/-- Python `hay[start:stop]` (negative bounds count from the end, clamped at
0; every call below is guarded so that `0 ≤ start < stop`). -/
def pySlice (hay : Line) (start stop : Int) : Line :=
  let s : Nat := if start < 0 then ((hay.length : Int) + start).toNat else start.toNat
  let e : Nat := if stop < 0 then ((hay.length : Int) + stop).toNat else stop.toNat
  (hay.take e).drop s

/-- Python `lines[start:]`. -/
def pySliceFrom (xs : List Line) (start : Int) : List Line :=
  if start < 0 then xs.drop ((xs.length : Int) + start).toNat else xs.drop start.toNat

/-- Decimal value of a digit run. -/
def digitsToNat (ds : Line) : Nat :=
  List.foldl (fun n c => n * 10 + (c.toNat - 48)) 0 ds

/-- Python `int(s)` on the strings at hand: optional surrounding spaces, an
optional sign, then a nonempty digit run; anything else raises `ValueError`,
modelled as `none`.  (Underscore digit grouping and non-space whitespace are
not modelled; no reachable log field uses them.) -/
def pyInt (s : Line) : Option Int :=
  let t := ((s.dropWhile (fun c => c == ' ')).reverse.dropWhile (fun c => c == ' ')).reverse
  match t with
  | '-' :: ds =>
    if !ds.isEmpty && ds.all Char.isDigit then some (-(digitsToNat ds : Int)) else none
  | '+' :: ds =>
    if !ds.isEmpty && ds.all Char.isDigit then some ((digitsToNat ds : Int)) else none
  | ds =>
    if !ds.isEmpty && ds.all Char.isDigit then some ((digitsToNat ds : Int)) else none

/-- The tag `"[AGENT]"`. -/
def agentTag : Line := "[AGENT]".data

/-- The tag `"[TAVILY] REQUEST"`. -/
def tavilyRequestTag : Line := "[TAVILY] REQUEST".data

/-- The tag `"[TAVILY] RESPONSE"`. -/
def tavilyResponseTag : Line := "[TAVILY] RESPONSE".data

/-- The tag `"[OPENROUTER] REQUEST"`. -/
def openrouterRequestTag : Line := "[OPENROUTER] REQUEST".data

/-- The tag `"[OPENROUTER] RESPONSE"`. -/
def openrouterResponseTag : Line := "[OPENROUTER] RESPONSE".data

/-- The tag `"ERROR"`. -/
def errorTag : Line := "ERROR".data

/-- The query extraction of `detect_loop` (`logging_utils.py` lines 184-190):
on a line containing `"[TAVILY] REQUEST"` and `"query="`, take the text
between `line.find("query=") + 7` and the next single quote (the `+ 7` skips
`"query='"`), keeping it only when that span is nonempty. -/
def extract_query (l : Line) : Option Line :=
  if containsSub tavilyRequestTag l && containsSub "query=".data l then
    let start : Int := pyFind l "query='".data + 7
    let stop : Int := pyFindFrom l "'".data start
    if start < stop then some (pySlice l start stop) else none
  else none

/-- The search queries `detect_loop` collects from a log. -/
def searchQueries (lines : List Line) : List Line :=
  lines.filterMap extract_query

/-- The iteration extraction of `detect_loop` (`logging_utils.py` lines
172-181): on a line containing `"iteration="`, parse the integer between
`find("iteration=") + 10` and the following `" |"`; parse failure or a
missing delimiter yields nothing. -/
def parsedIteration (l : Line) : Option Int :=
  if containsSub "iteration=".data l then
    let start : Int := pyFind l "iteration=".data + 10
    let stop : Int := pyFindFrom l " |".data start
    if start < stop then pyInt (pySlice l start stop) else none
  else none

/-- The iteration number of the most recent agent-step record, when one
parses. -/
def lastAgentIteration (lines : List Line) : Option Int :=
  ((lines.filter (fun l => containsSub agentTag l)).getLast?).bind parsedIteration

/-- The iteration-count branch of `detect_loop`: true when the last
`"[AGENT]"` line carries an iteration number at least `threshold`. -/
def agent_iteration_signal (lines : List Line) (threshold : Int) : Bool :=
  match lastAgentIteration lines with
  | some iteration => decide (threshold ≤ iteration)
  | none => false

/-- `detect_loop` (`logging_utils.py`): false on an empty log; true when the
most recent agent-step iteration reaches the threshold; otherwise true exactly
when the collected search queries contain a duplicate
(`len(searches) != len(set(searches))`, with `set` modelled by `dedup`). -/
def detect_loop (lines : List Line) (threshold : Int) : Bool :=
  if lines.isEmpty then false
  else if agent_iteration_signal lines threshold then true
  else
    !(searchQueries lines).isEmpty &&
      (searchQueries lines).length != (searchQueries lines).dedup.length

/-- `detect_loop` with its default `threshold=5`. -/
def detect_loop_default (lines : List Line) : Bool :=
  detect_loop lines 5

/-- Lines containing a tag, counted — the shape of every counter in
`get_session_summary`, `get_api_log_summary` and `print_summary`. -/
def countTag (lines : List Line) (tag : Line) : Nat :=
  (lines.filter (fun l => containsSub tag l)).length

/-- The request-type extraction of `get_request_type_breakdown`
(`logging_utils.py` lines 139-144): on an `"[OPENROUTER] REQUEST"` line with
`"type="`, the text between `find("type=") + 5` and the following `" |"`. -/
def extract_request_type (l : Line) : Option Line :=
  if containsSub openrouterRequestTag l && containsSub "type=".data l then
    let start : Int := pyFind l "type=".data + 5
    let stop : Int := pyFindFrom l " |".data start
    if start < stop then some (pySlice l start stop) else none
  else none

/-- Python `dict(Counter(xs))`: each distinct value, in first-occurrence
order, with its multiplicity. -/
def counterOf (xs : List Line) : List (Line × Nat) :=
  xs.dedup.map (fun x => (x, xs.count x))

/-- `get_request_type_breakdown` (`logging_utils.py`), over given lines. -/
def get_request_type_breakdown (lines : List Line) : List (Line × Nat) :=
  counterOf (lines.filterMap extract_request_type)

/-- The mapping returned by `get_session_summary` (`logging_utils.py`); the
`log_file` path string is omitted (pure filesystem metadata). -/
structure SessionSummary where
  total_lines : Nat
  tavily_requests : Nat
  tavily_responses : Nat
  openrouter_requests : Nat
  openrouter_responses : Nat
  errors : Nat
  request_type_breakdown : List (Line × Nat)
  potential_loop : Bool
deriving DecidableEq

/-- `get_session_summary` over the log lines; the empty mapping returned for
an empty log becomes `none`. -/
def get_session_summary (lines : List Line) : Option SessionSummary :=
  if lines.isEmpty then none
  else
    some
      { total_lines := lines.length,
        tavily_requests := countTag lines tavilyRequestTag,
        tavily_responses := countTag lines tavilyResponseTag,
        openrouter_requests := countTag lines openrouterRequestTag,
        openrouter_responses := countTag lines openrouterResponseTag,
        errors := countTag lines errorTag,
        request_type_breakdown := get_request_type_breakdown lines,
        potential_loop := detect_loop lines 5 }

/-- The five counters of `get_api_log_summary` (`request_logger.py` lines
179-183), in order: Tavily requests, Tavily responses, OpenRouter requests,
OpenRouter responses, lines containing `"ERROR"`. -/
def get_api_log_summary_counts (lines : List Line) :
    Nat × Nat × Nat × Nat × Nat :=
  (countTag lines tavilyRequestTag,
   countTag lines tavilyResponseTag,
   countTag lines openrouterRequestTag,
   countTag lines openrouterResponseTag,
   countTag lines errorTag)

/-- `read_logs` (`logging_utils.py`): a missing log file gives `[]`; with the
file present, `if limit: return lines[-limit:]` returns all lines when `limit`
is `None` or `0` (both falsy) and the tail slice otherwise.  The file is
modelled by its optional line list. -/
def read_logs (logFile : Option (List Line)) (limit : Option Int) : List Line :=
  match logFile with
  | none => []
  | some lines =>
    match limit with
    | none => lines
    | some l => if l != 0 then pySliceFrom lines (-l) else lines

/-- The terminal-field invariant that does hold of every reachable task: a
completed task carries a result and a failed task carries an error. -/
def TaskInv (t : ResearchTask) : Prop :=
  (t.status = "completed" → t.result.isSome = true) ∧
  (t.status = "failed" → t.error.isSome = true)

instance (t : ResearchTask) : Decidable (TaskInv t) :=
  inferInstanceAs (Decidable (And _ _))

/-- View a string literal as a log line. -/
def logLine (s : String) : Line := s.data

/-- An audit log with three search-provider requests whose queries are
"quantum computing", "machine learning", "quantum computing" — the duplicate
scenario of the spec. -/
def c5_scenario_log : List Line :=
  [ logLine "2024-01-15 10:00:00 - api_requests - INFO - [TAVILY] REQUEST | query='quantum computing' | max_results=3 | topic=general",
    logLine "2024-01-15 10:00:05 - api_requests - INFO - [TAVILY] REQUEST | query='machine learning' | max_results=3 | topic=general",
    logLine "2024-01-15 10:00:10 - api_requests - INFO - [TAVILY] REQUEST | query='quantum computing' | max_results=3 | topic=general" ]

/-- An audit log with 3 search-provider requests, 3 search-provider
responses, 2 model-provider requests and 1 model-provider error — the summary
scenario of the spec. -/
def c6_scenario_log : List Line :=
  [ logLine "2024-01-15 10:00:00 - api_requests - INFO - [TAVILY] REQUEST | query='alpha' | max_results=3 | topic=general",
    logLine "2024-01-15 10:00:01 - api_requests - INFO - [TAVILY] RESPONSE | query='alpha' | results_count=3",
    logLine "2024-01-15 10:00:02 - api_requests - INFO - [TAVILY] REQUEST | query='beta' | max_results=3 | topic=general",
    logLine "2024-01-15 10:00:03 - api_requests - INFO - [TAVILY] RESPONSE | query='beta' | results_count=3",
    logLine "2024-01-15 10:00:04 - api_requests - INFO - [OPENROUTER] REQUEST | type=research | model=m1 | num_messages=2 | max_tokens=None | first_msg='hello...'",
    logLine "2024-01-15 10:00:05 - api_requests - INFO - [TAVILY] REQUEST | query='gamma' | max_results=3 | topic=general",
    logLine "2024-01-15 10:00:06 - api_requests - INFO - [TAVILY] RESPONSE | query='gamma' | results_count=3",
    logLine "2024-01-15 10:00:07 - api_requests - INFO - [OPENROUTER] REQUEST | type=summarization | model=m1 | num_messages=4 | max_tokens=None | first_msg='go...'",
    logLine "2024-01-15 10:00:08 - api_requests - ERROR - [OPENROUTER] ERROR | type=research | model=m1 | error=timeout" ]

/-- A store of `n` tasks created at strictly increasing times (task `i` at
logical time `i`), for the pagination scenario. -/
def c7_tasks (n : Nat) : Store :=
  (List.range n).map
    (fun i =>
      { research_id := toString i, query := "q", research_type := "supervisor",
        status := "pending", result := none, error := none,
        created_at := i, updated_at := i })

/-! ### Helper lemmas about the store embedding -/

theorem findTask_cons (t : ResearchTask) (ts : Store) (rid : String) :
    findTask (t :: ts) rid = if t.research_id == rid then some t else findTask ts rid := by
  rw [findTask, List.find?_cons]
  split <;> simp_all [findTask]

theorem findTask_append (db1 db2 : Store) (rid : String) :
    findTask (db1 ++ db2) rid = (findTask db1 rid).or (findTask db2 rid) := by
  simp [findTask, List.find?_append]

theorem update_task_of_not_found (db : Store) (rid : String) (f : ResearchTask → ResearchTask)
    (h : findTask db rid = none) : update_task db rid f = (db, none) := by
  induction db with
  | nil => rfl
  | cons t ts ih =>
    rw [findTask_cons] at h
    by_cases hp : (t.research_id == rid) = true
    · simp [hp] at h
    · simp only [hp, if_false, Bool.false_eq_true] at h ⊢
      simp [update_task, hp, ih h]

theorem update_task_found (db : Store) (rid : String) (f : ResearchTask → ResearchTask)
    (t : ResearchTask) (hf : ∀ u, (f u).research_id = u.research_id)
    (h : findTask db rid = some t) :
    (update_task db rid f).2 = some (f t) ∧
    findTask (update_task db rid f).1 rid = some (f t) := by
  induction db with
  | nil => simp [findTask] at h
  | cons x xs ih =>
    rw [findTask_cons] at h
    by_cases hp : (x.research_id == rid) = true
    · rw [if_pos hp] at h
      cases h
      refine ⟨by simp [update_task, hp], ?_⟩
      rw [show update_task (t :: xs) rid f = (f t :: xs, some (f t)) by simp [update_task, hp]]
      rw [findTask_cons, hf t, if_pos hp]
    · rw [if_neg hp] at h
      have hrec := ih h
      constructor
      · simp only [update_task, hp, if_false, Bool.false_eq_true]
        exact hrec.1
      · simp only [update_task, hp, if_false, Bool.false_eq_true]
        rw [findTask_cons, if_neg hp]
        exact hrec.2

theorem mem_update_task (db : Store) (rid : String) (f : ResearchTask → ResearchTask) :
    ∀ u ∈ (update_task db rid f).1, u ∈ db ∨ ∃ v, v ∈ db ∧ u = f v := by
  induction db with
  | nil => simp [update_task]
  | cons x xs ih =>
    intro u hu
    by_cases hp : (x.research_id == rid) = true
    · simp only [update_task, hp, if_true, List.mem_cons] at hu
      rcases hu with h | h
      · exact Or.inr ⟨x, List.mem_cons_self x xs, h⟩
      · exact Or.inl (List.mem_cons_of_mem x h)
    · simp only [update_task, hp, if_false, Bool.false_eq_true, List.mem_cons] at hu
      rcases hu with h | h
      · exact Or.inl (h ▸ List.mem_cons_self x xs)
      · rcases ih u h with h' | ⟨v, hv, huv⟩
        · exact Or.inl (List.mem_cons_of_mem x h')
        · exact Or.inr ⟨v, List.mem_cons_of_mem x hv, huv⟩

theorem create_ok (db : Store) (now : Nat) (rid q k st : String) (db' : Store)
    (t : ResearchTask)
    (h : ResearchRepository.create db now rid q k st = .ok (db', t)) :
    findTask db rid = none ∧
    t = { research_id := rid, query := q, research_type := k, status := st,
          result := none, error := none, created_at := now, updated_at := now } ∧
    db' = db ++ [t] ∧ findTask db' rid = some t := by
  unfold ResearchRepository.create at h
  by_cases hd : (findTask db rid).isSome
  · simp [hd] at h
  · rw [if_neg hd] at h
    have hnone : findTask db rid = none := Option.not_isSome_iff_eq_none.mp hd
    cases h
    refine ⟨hnone, rfl, rfl, ?_⟩
    rw [findTask_append, hnone, Option.none_or, findTask_cons]
    simp

theorem update_status_found (db : Store) (now : Nat) (rid s : String) (t : ResearchTask)
    (h : findTask db rid = some t) :
    (ResearchRepository.update_status db now rid s).2 =
      some { t with status := s, updated_at := now } ∧
    findTask (ResearchRepository.update_status db now rid s).1 rid =
      some { t with status := s, updated_at := now } := by
  have := update_task_found db rid (fun u => { u with status := s, updated_at := now })
    t (fun u => rfl) h
  simpa [ResearchRepository.update_status, h] using this

theorem update_result_found (db : Store) (now : Nat) (rid : String) (r : ResultData)
    (t : ResearchTask) (h : findTask db rid = some t) :
    (ResearchRepository.update_result db now rid r).2 =
      some { t with result := some r, status := "completed", updated_at := now } ∧
    findTask (ResearchRepository.update_result db now rid r).1 rid =
      some { t with result := some r, status := "completed", updated_at := now } := by
  have := update_task_found db rid
    (fun u => { u with result := some r, status := "completed", updated_at := now })
    t (fun u => rfl) h
  simpa [ResearchRepository.update_result, h] using this

theorem update_error_found (db : Store) (now : Nat) (rid e : String) (t : ResearchTask)
    (h : findTask db rid = some t) :
    (ResearchRepository.update_error db now rid e).2 =
      some { t with error := some e, status := "failed", updated_at := now } ∧
    findTask (ResearchRepository.update_error db now rid e).1 rid =
      some { t with error := some e, status := "failed", updated_at := now } := by
  have := update_task_found db rid
    (fun u => { u with error := some e, status := "failed", updated_at := now })
    t (fun u => rfl) h
  simpa [ResearchRepository.update_error, h] using this

theorem update_status_not_found (db : Store) (now : Nat) (rid s : String)
    (h : findTask db rid = none) :
    ResearchRepository.update_status db now rid s = (db, none) := by
  simp [ResearchRepository.update_status, h]

theorem update_result_not_found (db : Store) (now : Nat) (rid : String) (r : ResultData)
    (h : findTask db rid = none) :
    ResearchRepository.update_result db now rid r = (db, none) := by
  simp [ResearchRepository.update_result, h]

theorem update_error_not_found (db : Store) (now : Nat) (rid e : String)
    (h : findTask db rid = none) :
    ResearchRepository.update_error db now rid e = (db, none) := by
  simp [ResearchRepository.update_error, h]

/-! ### Helper lemmas about the reachable-store invariant -/

theorem applyOp_inv (db : Store) (now : Nat) (op : StoreOp)
    (h : ∀ t ∈ db, TaskInv t) : ∀ t ∈ applyOp db now op, TaskInv t := by
  cases op with
  | create rid q k =>
    intro t ht
    simp only [applyOp] at ht
    cases hc : ResearchRepository.create db now rid q k "pending" with
    | error de =>
      rw [hc] at ht
      exact h t ht
    | ok p =>
      obtain ⟨db', tk⟩ := p
      rw [hc] at ht
      have ht' : t ∈ db' := ht
      obtain ⟨-, htk, hdb', -⟩ := create_ok db now rid q k "pending" db' tk hc
      rw [hdb'] at ht'
      rcases List.mem_append.mp ht' with hm | hm
      · exact h t hm
      · rw [List.mem_singleton] at hm
        subst hm
        rw [htk]
        exact ⟨fun hs => by simp at hs, fun hs => by simp at hs⟩
  | setRunning rid =>
    intro t ht
    simp only [applyOp, ResearchRepository.update_status] at ht
    by_cases hd : (findTask db rid).isSome
    · rw [if_pos hd] at ht
      rcases mem_update_task db rid _ t ht with h' | ⟨v, hv, rfl⟩
      · exact h t h'
      · exact ⟨fun hs => by simp at hs, fun hs => by simp at hs⟩
    · rw [if_neg hd] at ht
      exact h t ht
  | setCompleted rid r =>
    intro t ht
    simp only [applyOp, ResearchRepository.update_result] at ht
    by_cases hd : (findTask db rid).isSome
    · rw [if_pos hd] at ht
      rcases mem_update_task db rid _ t ht with h' | ⟨v, hv, rfl⟩
      · exact h t h'
      · exact ⟨fun _ => rfl, fun hs => by simp at hs⟩
    · rw [if_neg hd] at ht
      exact h t ht
  | setFailed rid e =>
    intro t ht
    simp only [applyOp, ResearchRepository.update_error] at ht
    by_cases hd : (findTask db rid).isSome
    · rw [if_pos hd] at ht
      rcases mem_update_task db rid _ t ht with h' | ⟨v, hv, rfl⟩
      · exact h t h'
      · exact ⟨fun hs => by simp at hs, fun _ => rfl⟩
    · rw [if_neg hd] at ht
      exact h t ht

theorem foldl_opStep_inv (ops : List StoreOp) :
    ∀ p : Store × Nat, (∀ t ∈ p.1, TaskInv t) →
      ∀ t ∈ (List.foldl opStep p ops).1, TaskInv t := by
  induction ops with
  | nil => intro p h; simpa using h
  | cons op rest ih =>
    intro p h
    rw [List.foldl_cons]
    exact ih (opStep p op) (fun t ht => applyOp_inv p.1 p.2 op h t ht)

/-! ### Helper lemmas about sorting and pagination -/

theorem length_insertDesc (t : ResearchTask) (l : List ResearchTask) :
    (insertDesc t l).length = l.length + 1 := by
  induction l with
  | nil => rfl
  | cons x xs ih =>
    by_cases h : t.created_at ≤ x.created_at <;> simp [insertDesc, h, ih]

theorem length_sortByCreatedDesc (l : List ResearchTask) :
    (sortByCreatedDesc l).length = l.length := by
  induction l with
  | nil => rfl
  | cons x xs ih => simp [sortByCreatedDesc, length_insertDesc, ih]

theorem mem_insertDesc (t : ResearchTask) (l : List ResearchTask) (u : ResearchTask) :
    u ∈ insertDesc t l ↔ u = t ∨ u ∈ l := by
  induction l with
  | nil => simp [insertDesc]
  | cons x xs ih =>
    by_cases h : t.created_at ≤ x.created_at
    · simp only [insertDesc, if_pos h, List.mem_cons, ih]
      tauto
    · simp only [insertDesc, if_neg h, List.mem_cons]

theorem pairwise_insertDesc (t : ResearchTask) (l : List ResearchTask)
    (h : List.Pairwise (fun a b => b.created_at ≤ a.created_at) l) :
    List.Pairwise (fun a b => b.created_at ≤ a.created_at) (insertDesc t l) := by
  induction l with
  | nil => simp [insertDesc]
  | cons x xs ih =>
    rcases List.pairwise_cons.mp h with ⟨hx, hxs⟩
    by_cases hc : t.created_at ≤ x.created_at
    · rw [insertDesc, if_pos hc]
      refine List.pairwise_cons.mpr ⟨?_, ih hxs⟩
      intro y hy
      rcases (mem_insertDesc t xs y).mp hy with rfl | hy'
      · exact hc
      · exact hx y hy'
    · rw [insertDesc, if_neg hc]
      refine List.pairwise_cons.mpr ⟨?_, h⟩
      intro y hy
      rcases List.mem_cons.mp hy with rfl | hy'
      · omega
      · have := hx y hy'
        omega

theorem pairwise_sortByCreatedDesc (l : List ResearchTask) :
    List.Pairwise (fun a b => b.created_at ≤ a.created_at) (sortByCreatedDesc l) := by
  induction l with
  | nil => simp [sortByCreatedDesc]
  | cons x xs ih => exact pairwise_insertDesc x (sortByCreatedDesc xs) ih

theorem perm_insertDesc (t : ResearchTask) (l : List ResearchTask) :
    List.Perm (insertDesc t l) (t :: l) := by
  induction l with
  | nil => exact List.Perm.refl _
  | cons x xs ih =>
    by_cases h : t.created_at ≤ x.created_at
    · rw [insertDesc, if_pos h]
      exact (ih.cons x).trans (List.Perm.swap t x xs)
    · rw [insertDesc, if_neg h]

theorem perm_sortByCreatedDesc (l : List ResearchTask) :
    List.Perm (sortByCreatedDesc l) l := by
  induction l with
  | nil => exact List.Perm.refl _
  | cons x xs ih =>
    exact (perm_insertDesc x (sortByCreatedDesc xs)).trans (ih.cons x)

theorem insertDesc_of_all_ge (t : ResearchTask) (l : List ResearchTask)
    (h : ∀ y ∈ l, t.created_at ≤ y.created_at) :
    insertDesc t l = l ++ [t] := by
  induction l with
  | nil => rfl
  | cons x xs ih =>
    rw [insertDesc, if_pos (h x (List.mem_cons_self x xs)), List.cons_append,
      ih (fun y hy => h y (List.mem_cons_of_mem x hy))]

theorem sortByCreatedDesc_of_ascending (l : List ResearchTask)
    (h : List.Pairwise (fun a b => a.created_at < b.created_at) l) :
    sortByCreatedDesc l = l.reverse := by
  induction l with
  | nil => rfl
  | cons x xs ih =>
    rcases List.pairwise_cons.mp h with ⟨hx, hxs⟩
    rw [sortByCreatedDesc, ih hxs,
      insertDesc_of_all_ge x xs.reverse
        (fun y hy => Nat.le_of_lt (hx y (List.mem_reverse.mp hy))),
      List.reverse_cons]

/-! ### Helper lemma about duplicate detection -/

theorem dedup_length_eq_iff (l : List Line) : l.dedup.length = l.length ↔ l.Nodup := by
  constructor
  · intro h
    have heq := (List.dedup_sublist l).eq_of_length h
    rw [← heq]
    exact List.nodup_dedup l
  · intro h
    rw [List.dedup_eq_self.mpr h]

/-! ### Claim C1 -/

/-- C1, counterexample to the claim as stated: statuses are not one-directional
and `completed` is not terminal.  After `create` and a first `setCompleted`
(`update_result`) the task is completed with result `c1/d1`; a second
`setCompleted` with a different payload is neither rejected nor a no-op: it
replaces the stored result by `c2/d2`. -/
theorem C1_counterexample :
    (findTask (applyOps [.create "id1" "q" "supervisor",
        .setCompleted "id1" ⟨"c1", [], "d1"⟩]) "id1").map
        (fun t => (t.status, t.result)) =
      some ("completed", some ⟨"c1", [], "d1"⟩) ∧
    (findTask (applyOps [.create "id1" "q" "supervisor",
        .setCompleted "id1" ⟨"c1", [], "d1"⟩,
        .setCompleted "id1" ⟨"c2", [], "d2"⟩]) "id1").map
        (fun t => (t.status, t.result)) =
      some ("completed", some ⟨"c2", [], "d2"⟩) ∧
    (some (⟨"c1", [], "d1"⟩ : ResultData) ≠ some (⟨"c2", [], "d2"⟩ : ResultData)) := by
  decide

/-- C1, amended: the status writes perform no transition check.  On a task
with any current state (terminal included), `update_status` stores the given
status, `update_result` stores the given result and forces `completed`,
`update_error` stores the given error and forces `failed`, and a second
`update_result` overwrites the already-stored result with the new one. -/
theorem C1_theorem (db : Store) (n1 n2 : Nat) (rid s e : String) (r1 r2 : ResultData)
    (t : ResearchTask) (h : findTask db rid = some t) :
    (ResearchRepository.update_status db n1 rid s).2 =
      some { t with status := s, updated_at := n1 } ∧
    (ResearchRepository.update_result db n1 rid r1).2 =
      some { t with result := some r1, status := "completed", updated_at := n1 } ∧
    (ResearchRepository.update_error db n1 rid e).2 =
      some { t with error := some e, status := "failed", updated_at := n1 } ∧
    findTask (ResearchRepository.update_result
        (ResearchRepository.update_result db n1 rid r1).1 n2 rid r2).1 rid =
      some { t with result := some r2, status := "completed", updated_at := n2 } := by
  refine ⟨(update_status_found db n1 rid s t h).1,
          (update_result_found db n1 rid r1 t h).1,
          (update_error_found db n1 rid e t h).1, ?_⟩
  have h1 := (update_result_found db n1 rid r1 t h).2
  exact (update_result_found _ n2 rid r2 _ h1).2

/-- C1, witness: the amended theorem applied to a store holding one already
completed task. -/
theorem C1_theorem_witness :
    findTask [(⟨"i", "q", "k", "completed", some ⟨"c0", [], "d0"⟩, none, 0, 0⟩ : ResearchTask)]
        "i" = some ⟨"i", "q", "k", "completed", some ⟨"c0", [], "d0"⟩, none, 0, 0⟩ ∧
    findTask (ResearchRepository.update_result
        (ResearchRepository.update_result
          [(⟨"i", "q", "k", "completed", some ⟨"c0", [], "d0"⟩, none, 0, 0⟩ : ResearchTask)]
          1 "i" ⟨"c1", [], "d1"⟩).1 2 "i" ⟨"c2", [], "d2"⟩).1 "i" =
      some ⟨"i", "q", "k", "completed", some ⟨"c2", [], "d2"⟩, none, 0, 2⟩ :=
  ⟨by decide,
   ( C1_theorem [(⟨"i", "q", "k", "completed", some ⟨"c0", [], "d0"⟩, none, 0, 0⟩ : ResearchTask)]
      1 2 "i" "running" "boom" ⟨"c1", [], "d1"⟩ ⟨"c2", [], "d2"⟩
      ⟨"i", "q", "k", "completed", some ⟨"c0", [], "d0"⟩, none, 0, 0⟩
      (by decide)).2.2.2⟩

/-! ### Claim C2 -/

/-- C2, counterexample to the claim as stated: the sequence `create`,
`update_result`, `update_error` produces a reachable task that has both
`result` and `error` set, with status `failed` — so a task with `result` set
need not be `completed`, and a task can have both fields at once
(`update_error` does not clear `result`). -/
theorem C2_counterexample :
    (findTask (applyOps [.create "id1" "q" "supervisor",
        .setCompleted "id1" ⟨"c1", [], "d1"⟩,
        .setFailed "id1" "boom"]) "id1").map
        (fun t => (t.result, t.error, t.status)) =
      some (some ⟨"c1", [], "d1"⟩, some "boom", "failed") ∧
    ("failed" : String) ≠ "completed" := by
  decide

/-- C2, amended: only the converse implications hold of every reachable task —
a task with status `completed` has `result` set and a task with status
`failed` has `error` set, for any sequence of repository operations run from
the empty store; the original directions fail because `update_result` and
`update_error` leave the other terminal field in place. -/
theorem C2_theorem (ops : List StoreOp) (t : ResearchTask) (h : t ∈ applyOps ops) :
    (t.status = "completed" → t.result.isSome = true) ∧
    (t.status = "failed" → t.error.isSome = true) :=
  foldl_opStep_inv ops ([], 0) (by intro u hu; simp at hu) t h

/-- C2, witness: the amended theorem applied to the store reached by a create
followed by a successful completion. -/
theorem C2_theorem_witness :
    (⟨"a", "q", "k", "completed", some ⟨"c", [], "d"⟩, none, 0, 1⟩ : ResearchTask) ∈
      applyOps [.create "a" "q" "k", .setCompleted "a" ⟨"c", [], "d"⟩] ∧
    (((⟨"a", "q", "k", "completed", some ⟨"c", [], "d"⟩, none, 0, 1⟩ : ResearchTask).status =
        "completed" →
      (⟨"a", "q", "k", "completed", some ⟨"c", [], "d"⟩, none, 0, 1⟩ : ResearchTask).result.isSome
        = true) ∧
     ((⟨"a", "q", "k", "completed", some ⟨"c", [], "d"⟩, none, 0, 1⟩ : ResearchTask).status =
        "failed" →
      (⟨"a", "q", "k", "completed", some ⟨"c", [], "d"⟩, none, 0, 1⟩ : ResearchTask).error.isSome
        = true)) :=
  ⟨by decide, C2_theorem [.create "a" "q" "k", .setCompleted "a" ⟨"c", [], "d"⟩] _ (by decide)⟩

/-! ### Claim C3 -/

/-- C3: whenever submission succeeds, reading the task back by its
`research_id` yields a task with the submitted query and kind, status
`pending` and null result and error, and the submit response itself reports
status `pending` with null result and error. -/
theorem C3_theorem (db : Store) (now : Nat) (rid q k : String) (db' : Store)
    (resp : ResearchResponse)
    (h : start_research db now rid q k = .ok (db', resp)) :
    resp = { research_id := rid, status := "pending", query := q,
             result := none, error := none } ∧
    ∃ t, ResearchRepository.get_by_id db' rid = some t ∧
      t.query = q ∧ t.research_type = k ∧ t.status = "pending" ∧
      t.result = none ∧ t.error = none := by
  unfold start_research at h
  split at h
  · exact absurd h (by simp)
  · rename_i p heq
    obtain ⟨db2, tk⟩ := p
    rw [Except.ok.injEq, Prod.mk.injEq] at h
    obtain ⟨hdb, hresp⟩ := h
    obtain ⟨-, htk, -, hfind⟩ := create_ok db now rid q k "pending" db2 tk heq
    subst hdb
    refine ⟨hresp.symm, tk, hfind, ?_⟩
    rw [htk]
    exact ⟨rfl, rfl, rfl, rfl, rfl⟩

/-- C3, witness: submitting to the empty store and reading back. -/
theorem C3_theorem_witness :
    start_research [] 0 "rid1" "my query" "supervisor" =
      .ok ([(⟨"rid1", "my query", "supervisor", "pending", none, none, 0, 0⟩ : ResearchTask)],
           ⟨"rid1", "pending", "my query", none, none⟩) ∧
    ((⟨"rid1", "pending", "my query", none, none⟩ : ResearchResponse) =
      { research_id := "rid1", status := "pending", query := "my query",
        result := none, error := none } ∧
     ∃ t, ResearchRepository.get_by_id
        [(⟨"rid1", "my query", "supervisor", "pending", none, none, 0, 0⟩ : ResearchTask)]
        "rid1" = some t ∧
      t.query = "my query" ∧ t.research_type = "supervisor" ∧ t.status = "pending" ∧
      t.result = none ∧ t.error = none) :=
  ⟨rfl, C3_theorem [] 0 "rid1" "my query" "supervisor" _ _ rfl⟩

/-! ### Claim C4 -/

/-- C4: result normalization — when the engine result has no `draft_report`
or an empty one, the stored report is the fixed heading, a blank line and the
`compressed_research` field (just the heading when that is absent too); a
present nonempty `draft_report` is stored unchanged. -/
theorem C4_theorem (res : EngineResult) :
    ((res.draft_report = none ∨ res.draft_report = some "") →
      (build_result_data res).draft_report =
        "# Research Report\n\n" ++ res.compressed_research.getD "" ∧
      (res.compressed_research = none →
        (build_result_data res).draft_report = "# Research Report\n\n")) ∧
    (∀ s, res.draft_report = some s → s ≠ "" →
      (build_result_data res).draft_report = s) := by
  constructor
  · intro habs
    have hd : res.draft_report.getD "" = "" := by
      rcases habs with h | h <;> simp [h]
    constructor
    · simp [build_result_data, hd]
    · intro hc
      simp [build_result_data, hd, hc]
  · intro s hs hne
    have hd : res.draft_report.getD "" = s := by simp [hs]
    simp [build_result_data, hd, hne]

/-- C4, witness: the normalization applied to an engine result with no report
field, and to one with a nonempty report. -/
theorem C4_theorem_witness :
    ((⟨none, some "summary", none⟩ : EngineResult).draft_report = none ∨
      (⟨none, some "summary", none⟩ : EngineResult).draft_report = some "") ∧
    (build_result_data ⟨none, some "summary", none⟩).draft_report =
      "# Research Report\n\nsummary" ∧
    (build_result_data ⟨some "full report", some "summary", none⟩).draft_report =
      "full report" :=
  ⟨Or.inl rfl,
   (( C4_theorem ⟨none, some "summary", none⟩).1 (Or.inl rfl)).1.trans (by decide),
   ( C4_theorem ⟨some "full report", some "summary", none⟩).2 "full report" rfl (by decide)⟩

/-! ### Claim C8 -/

/-- C8: operations on an absent `research_id` — `get_by_id` returns `none`
without failing, the HTTP read surfaces a 404, and each update operation
returns the not-found signal `none` while leaving the store unchanged. -/
theorem C8_theorem (db : Store) (now : Nat) (rid s e : String) (r : ResultData)
    (h : findTask db rid = none) :
    ResearchRepository.get_by_id db rid = none ∧
    get_research_status db rid = .error ⟨404, "Research not found"⟩ ∧
    ResearchRepository.update_status db now rid s = (db, none) ∧
    ResearchRepository.update_result db now rid r = (db, none) ∧
    ResearchRepository.update_error db now rid e = (db, none) := by
  refine ⟨h, ?_, update_status_not_found db now rid s h,
    update_result_not_found db now rid r h, update_error_not_found db now rid e h⟩
  simp only [get_research_status, ResearchRepository.get_by_id, h]

/-- C8, witness: the absent-key theorem applied to the empty store. -/
theorem C8_theorem_witness :
    findTask [] "ghost" = none ∧
    get_research_status [] "ghost" = .error ⟨404, "Research not found"⟩ ∧
    ResearchRepository.update_status [] 0 "ghost" "running" = ([], none) :=
  ⟨rfl, ( C8_theorem [] 0 "ghost" "running" "boom" ⟨"c", [], "d"⟩ rfl).2.1,
   ( C8_theorem [] 0 "ghost" "running" "boom" ⟨"c", [], "d"⟩ rfl).2.2.1⟩

/-! ### Claim C9 -/

/-- C9: engine-failure containment — when the engine invocation raises, the
background run makes exactly one terminal store call, a `setFailed` carrying
the engine message, and the task ends with status `failed` and that message
as its error; on engine success the single terminal call is `setCompleted`
with the normalized result.  The run itself is a total function: no
exception reaches the submitter. -/
theorem C9_theorem (db : Store) (now : Nat) (rid e : String) (t : ResearchTask)
    (h : findTask db rid = some t) :
    (run_research db now rid (.error e)).2.filter RunCall.isTerminal = [.setFailed e] ∧
    (∀ res, (run_research db now rid (.ok res)).2.filter RunCall.isTerminal =
      [.setCompleted (build_result_data res)]) ∧
    ∃ t', findTask (run_research db now rid (.error e)).1 rid = some t' ∧
      t'.error = some e ∧ t'.status = "failed" := by
  refine ⟨rfl, fun res => rfl, ?_⟩
  have h1 := (update_status_found db now rid "running" t h).2
  have h2 := (update_error_found _ now rid e _ h1).2
  exact ⟨_, h2, rfl, rfl⟩

/-- C9, witness: a failing engine run over a one-task store. -/
theorem C9_theorem_witness :
    findTask [(⟨"i", "q", "k", "pending", none, none, 0, 0⟩ : ResearchTask)] "i" =
      some ⟨"i", "q", "k", "pending", none, none, 0, 0⟩ ∧
    (run_research [(⟨"i", "q", "k", "pending", none, none, 0, 0⟩ : ResearchTask)] 1 "i"
        (.error "engine exploded")).2.filter RunCall.isTerminal =
      [.setFailed "engine exploded"] ∧
    ∃ t', findTask (run_research
        [(⟨"i", "q", "k", "pending", none, none, 0, 0⟩ : ResearchTask)] 1 "i"
        (.error "engine exploded")).1 "i" = some t' ∧
      t'.error = some "engine exploded" ∧ t'.status = "failed" :=
  ⟨by decide,
   ( C9_theorem [(⟨"i", "q", "k", "pending", none, none, 0, 0⟩ : ResearchTask)] 1 "i"
      "engine exploded" ⟨"i", "q", "k", "pending", none, none, 0, 0⟩ (by decide)).1,
   ( C9_theorem [(⟨"i", "q", "k", "pending", none, none, 0, 0⟩ : ResearchTask)] 1 "i"
      "engine exploded" ⟨"i", "q", "k", "pending", none, none, 0, 0⟩ (by decide)).2.2⟩

/-! ### Claim C5 -/

theorem agent_iteration_signal_iff (lines : List Line) (t : Int) :
    agent_iteration_signal lines t = true ↔
      ∃ n, lastAgentIteration lines = some n ∧ t ≤ n := by
  unfold agent_iteration_signal
  cases h : lastAgentIteration lines with
  | none => simp
  | some n => simp [decide_eq_true_iff]

theorem dup_branch_iff (searches : List Line) :
    (!searches.isEmpty && searches.length != searches.dedup.length) = true ↔
      ¬ searches.Nodup := by
  cases searches with
  | nil => simp
  | cons x xs =>
    simp only [List.isEmpty_cons, Bool.not_false, Bool.true_and, ne_eq, bne_iff_ne]
    constructor
    · intro hne hnodup
      exact hne (by rw [List.dedup_eq_self.mpr hnodup])
    · intro hnd hne
      exact hnd ((dedup_length_eq_iff _).mp hne.symm)

theorem detect_loop_iff (lines : List Line) (t : Int) :
    detect_loop lines t = true ↔
      ((∃ n, lastAgentIteration lines = some n ∧ t ≤ n) ∨
       ¬ (searchQueries lines).Nodup) := by
  unfold detect_loop
  by_cases hemp : lines.isEmpty
  · rw [if_pos hemp]
    have hnil : lines = [] := List.isEmpty_iff.mp hemp
    subst hnil
    simp [lastAgentIteration, searchQueries]
  · rw [if_neg hemp]
    by_cases hsig : agent_iteration_signal lines t = true
    · rw [if_pos hsig]
      simp only [true_iff]
      exact Or.inl ((agent_iteration_signal_iff lines t).mp hsig)
    · rw [if_neg hsig, dup_branch_iff]
      constructor
      · exact Or.inr
      · rintro (hl | hr)
        · exact absurd ((agent_iteration_signal_iff lines t).mpr hl) hsig
        · exact hr

/-- C5: the loop signal is true exactly when the iteration number parsed from
the most recent agent-step record reaches the threshold or the collected
search-provider queries contain a duplicate; an empty log (no agent-step
record, no duplicate) gives false; and on the concrete scenario with queries
"quantum computing", "machine learning", "quantum computing" the signal is
true.  The default threshold is 5. -/
theorem C5_theorem :
    (∀ (lines : List Line) (t : Int),
      detect_loop lines t = true ↔
        ((∃ n, lastAgentIteration lines = some n ∧ t ≤ n) ∨
         ¬ (searchQueries lines).Nodup)) ∧
    searchQueries c5_scenario_log =
      ["quantum computing".data, "machine learning".data, "quantum computing".data] ∧
    detect_loop c5_scenario_log 5 = true ∧
    (∀ lines, detect_loop_default lines = detect_loop lines 5) :=
  ⟨detect_loop_iff, by decide, by decide, fun _ => rfl⟩

/-! ### Claim C6 -/

/-- C6: for a nonempty log the session summary's per-category counts are the
number of log lines carrying the corresponding tag (and the errors count the
lines carrying "ERROR"); on the scenario log with 3 search-provider requests,
3 search-provider responses, 2 model-provider requests and 1 model-provider
error, both summaries report tavily_requests = 3, tavily_responses = 3 and
1 error in total. -/
theorem C6_theorem :
    (∀ lines : List Line, ¬ lines = [] →
      get_session_summary lines = some
        { total_lines := lines.length,
          tavily_requests := countTag lines tavilyRequestTag,
          tavily_responses := countTag lines tavilyResponseTag,
          openrouter_requests := countTag lines openrouterRequestTag,
          openrouter_responses := countTag lines openrouterResponseTag,
          errors := countTag lines errorTag,
          request_type_breakdown := get_request_type_breakdown lines,
          potential_loop := detect_loop lines 5 }) ∧
    (get_session_summary c6_scenario_log).map
      (fun s => (s.tavily_requests, s.tavily_responses, s.openrouter_requests,
                 s.openrouter_responses, s.errors)) = some (3, 3, 2, 0, 1) ∧
    get_api_log_summary_counts c6_scenario_log = (3, 3, 2, 0, 1) := by
  refine ⟨?_, by decide, by decide⟩
  intro lines hne
  unfold get_session_summary
  rw [if_neg (fun h => hne (List.isEmpty_iff.mp h))]

/-- C6, witness: the summary equation applied to the scenario log. -/
theorem C6_theorem_witness :
    ¬ c6_scenario_log = [] ∧
    get_session_summary c6_scenario_log = some
      { total_lines := c6_scenario_log.length,
        tavily_requests := countTag c6_scenario_log tavilyRequestTag,
        tavily_responses := countTag c6_scenario_log tavilyResponseTag,
        openrouter_requests := countTag c6_scenario_log openrouterRequestTag,
        openrouter_responses := countTag c6_scenario_log openrouterResponseTag,
        errors := countTag c6_scenario_log errorTag,
        request_type_breakdown := get_request_type_breakdown c6_scenario_log,
        potential_loop := detect_loop c6_scenario_log 5 } :=
  ⟨by decide, C6_theorem.1 c6_scenario_log (by decide)⟩

/-! ### Claim C7 -/

theorem c7_tasks_ascending (n : Nat) :
    List.Pairwise (fun a b => a.created_at < b.created_at) (c7_tasks n) := by
  unfold c7_tasks
  refine List.Pairwise.map _ ?_ (List.pairwise_lt_range n)
  intro a b hab
  simpa using hab

/-- C7: pagination — `get_all` returns the page of the creation-time-descending
ordering of the stored tasks obtained by skipping `offset` rows and keeping at
most `limit`; the page is sorted newest first, its length is
`min limit (stored - offset)`, the default limit is 100, and the ordering is a
permutation of the store.  For 150 tasks created at increasing times,
`get_all 100 0` is exactly the newest 100 and `get_all 100 100` the remaining
50. -/
theorem C7_theorem :
    (∀ (db : Store) (L O : Nat),
      ResearchRepository.get_all db L O = ((sortByCreatedDesc db).drop O).take L) ∧
    (∀ (db : Store) (L O : Nat),
      List.Pairwise (fun a b => b.created_at ≤ a.created_at)
        (ResearchRepository.get_all db L O)) ∧
    (∀ (db : Store) (L O : Nat),
      (ResearchRepository.get_all db L O).length = min L (db.length - O)) ∧
    (∀ db : Store,
      ResearchRepository.get_all_default db = ResearchRepository.get_all db 100 0) ∧
    (∀ db : Store, List.Perm (sortByCreatedDesc db) db) ∧
    ResearchRepository.get_all (c7_tasks 150) 100 0 = ((c7_tasks 150).reverse).take 100 ∧
    (ResearchRepository.get_all (c7_tasks 150) 100 0).length = 100 ∧
    ResearchRepository.get_all (c7_tasks 150) 100 100 = ((c7_tasks 150).reverse).drop 100 ∧
    (ResearchRepository.get_all (c7_tasks 150) 100 100).length = 50 := by
  have hlen : ∀ n, (c7_tasks n).length = n := by
    intro n
    simp [c7_tasks]
  have hsort : ∀ n, sortByCreatedDesc (c7_tasks n) = (c7_tasks n).reverse :=
    fun n => sortByCreatedDesc_of_ascending (c7_tasks n) (c7_tasks_ascending n)
  have hpage : ∀ (db : Store) (L O : Nat),
      (ResearchRepository.get_all db L O).length = min L (db.length - O) := by
    intro db L O
    simp [ResearchRepository.get_all, List.length_take, List.length_drop,
      length_sortByCreatedDesc]
  refine ⟨fun db L O => rfl, ?_, hpage, fun db => rfl, perm_sortByCreatedDesc, ?_, ?_, ?_, ?_⟩
  · intro db L O
    exact (pairwise_sortByCreatedDesc db).sublist
      ((List.take_sublist L _).trans (List.drop_sublist O _))
  · rw [ResearchRepository.get_all, hsort 150, List.drop_zero]
  · rw [hpage (c7_tasks 150) 100 0, hlen 150]
    decide
  · rw [ResearchRepository.get_all, hsort 150]
    exact List.take_of_length_le (by simp [hlen 150])
  · rw [hpage (c7_tasks 150) 100 100, hlen 150]
    decide

/-! ### Claim C10 -/

/-- C10: `read_logs` — for a limit of at least 1 the result is exactly the
last `min n N` lines in order; a limit of `None` or `0` returns all lines
(zero is treated as no limit); and a missing log file yields the empty list
rather than an error. -/
theorem C10_theorem (lines : List Line) (n : Int) (h : 1 ≤ n) :
    read_logs (some lines) (some n) = lines.drop (lines.length - n.toNat) ∧
    (read_logs (some lines) (some n)).length = min n.toNat lines.length ∧
    read_logs (some lines) none = lines ∧
    read_logs (some lines) (some 0) = lines ∧
    (∀ lim, read_logs none lim = ([] : List Line)) := by
  have hne : (n != 0) = true := bne_iff_ne.mpr (by omega)
  have h1 : read_logs (some lines) (some n) = lines.drop (lines.length - n.toNat) := by
    show (if (n != 0) = true then pySliceFrom lines (-n) else lines) =
      lines.drop (lines.length - n.toNat)
    rw [if_pos hne]
    show (if -n < 0 then lines.drop (((lines.length : Int) + -n)).toNat
      else lines.drop (-n).toNat) = lines.drop (lines.length - n.toNat)
    rw [if_pos (by omega)]
    congr 1
    omega
  refine ⟨h1, ?_, rfl, rfl, fun lim => rfl⟩
  rw [h1, List.length_drop]
  omega

/-- C10, witness: the tail behavior on a three-line log with limit 2. -/
theorem C10_theorem_witness :
    (1 : Int) ≤ 2 ∧
    read_logs (some ["a".data, "b".data, "c".data]) (some 2) =
      (["a".data, "b".data, "c".data] : List Line).drop
        ((["a".data, "b".data, "c".data] : List Line).length - (2 : Int).toNat) :=
  ⟨by decide, ( C10_theorem ["a".data, "b".data, "c".data] 2 (by decide)).1⟩
